import Mathlib

/-!
Shallow embedding of the GRSee IoT compliance monitor's rule evaluation
engine and aggregation helpers (src/rule_engine.py and src/app.py).

Events are dict-shaped in the source; here they are a record whose fields
follow the data model (string fields may be absent/null, modelled as
`Option String`; `denied_attempts` as `Option Int`; `temperature` as
`Option Rat`).  Python floats are modelled as `Rat`; every numeric value
appearing in the claims is exactly representable, and the arithmetic
involved (counts divided by counts, times 100, rounded to one decimal)
is exact at all the boundary values the claims mention.
-/

namespace GRSee

/-- Clock time (hour, minute, second), as produced by `datetime.time()`.
Python `time` objects compare lexicographically. -/
structure Time where
  hour : Nat
  minute : Nat
  second : Nat
deriving DecidableEq, Repr

/-- Result of `datetime.fromisoformat` on the formats the system uses. -/
structure DateTime where
  year : Nat
  month : Nat
  day : Nat
  time : Time
deriving DecidableEq, Repr

/-- Lexicographic strict comparison of clock times, as Python compares
`datetime.time` values. -/
def timeLt (a b : Time) : Bool :=
  decide (a.hour < b.hour ∨ (a.hour = b.hour ∧
    (a.minute < b.minute ∨ (a.minute = b.minute ∧ a.second < b.second))))

def isLeap (y : Nat) : Bool :=
  (y % 4 == 0 && y % 100 != 0) || y % 400 == 0

def daysInMonth (y m : Nat) : Nat :=
  if m = 2 then (if isLeap y then 29 else 28)
  else if m = 4 ∨ m = 6 ∨ m = 9 ∨ m = 11 then 30
  else 31

/-- Two decimal digits to a number; `none` when a character is not a digit. -/
def two (a b : Char) : Option Nat :=
  if a.isDigit ∧ b.isDigit then some ((a.toNat - 48) * 10 + (b.toNat - 48)) else none

/-- Four decimal digits to a number; `none` when a character is not a digit. -/
def four (a b c d : Char) : Option Nat :=
  if a.isDigit ∧ b.isDigit ∧ c.isDigit ∧ d.isDigit then
    some ((a.toNat - 48) * 1000 + (b.toNat - 48) * 100 + (c.toNat - 48) * 10 + (d.toNat - 48))
  else none

/-- Range-validated datetime construction, as `datetime.fromisoformat`
rejects out-of-range components with a `ValueError`. -/
def mkDateTime (y mo d h mi s : Nat) : Option DateTime :=
  if 1 ≤ y ∧ 1 ≤ mo ∧ mo ≤ 12 ∧ 1 ≤ d ∧ d ≤ daysInMonth y mo ∧
      h ≤ 23 ∧ mi ≤ 59 ∧ s ≤ 59 then
    some ⟨y, mo, d, ⟨h, mi, s⟩⟩
  else none

/-- `datetime.fromisoformat`, restricted to the formats this system feeds it:
`YYYY-MM-DD` (midnight) and `YYYY-MM-DD` + any one separator character +
`HH:MM:SS`.  Anything else yields `none` (a `ValueError` in the source,
caught by the caller). -/
def parseIso (s : String) : Option DateTime :=
  match s.toList with
  | [y1, y2, y3, y4, c1, m1, m2, c2, d1, d2] =>
    if c1 = '-' ∧ c2 = '-' then
      match four y1 y2 y3 y4, two m1 m2, two d1 d2 with
      | some y, some mo, some d => mkDateTime y mo d 0 0 0
      | _, _, _ => none
    else none
  | [y1, y2, y3, y4, c1, m1, m2, c2, d1, d2, _sep, h1, h2, c3, n1, n2, c4, s1, s2] =>
    if c1 = '-' ∧ c2 = '-' ∧ c3 = ':' ∧ c4 = ':' then
      match four y1 y2 y3 y4, two m1 m2, two d1 d2, two h1 h2, two n1 n2, two s1 s2 with
      | some y, some mo, some d, some h, some mi, some sec => mkDateTime y mo d h mi sec
      | _, _, _, _, _, _ => none
    else none
  | _ => none

/-- The prefix of a character list before the first occurrence of `sep`:
`s.split(sep)[0]` in Python. -/
def beforeChar (sep : Char) (l : List Char) : List Char :=
  l.takeWhile (fun c => !(c == sep))

/-- Drop a timezone suffix: `ts.split("+")[0].split("Z")[0]`. -/
def stripTZ (s : String) : String :=
  ⟨beforeChar 'Z' (beforeChar '+' s.toList)⟩

/-- Embeds `_parse_timestamp` (src/rule_engine.py lines 4-18): empty input
and parse failures both yield `none`, never an error. -/
def parse_timestamp (ts : String) : Option DateTime :=
  if ts = "" then none else parseIso (stripTZ ts)

def START_HOUR : Nat := 8
def END_HOUR : Nat := 18

/-- Embeds `_is_after_hours` (src/rule_engine.py lines 21-30) at the default
business-hours window 08:00-18:00: `dt.time() < time(8,0,0) or
dt.time() > time(18,0,0)`; `None` maps to `False`. -/
def is_after_hours (dt : Option DateTime) : Bool :=
  match dt with
  | none => false
  | some d => timeLt d.time ⟨START_HOUR, 0, 0⟩ || timeLt ⟨END_HOUR, 0, 0⟩ d.time

/-- An input event.  All classification fields may be absent or null. -/
structure Event where
  event_id : Option String
  timestamp : Option String
  device_type : Option String
  zone : Option String
  event_type : Option String
  severity : Option String
  denied_attempts : Option Int
  temperature : Option Rat
deriving DecidableEq, Repr

structure PolicyResult where
  policy_id : Option String
  policy_name : Option String
  is_violation : Bool
  reason : String
deriving DecidableEq, Repr

structure IsoControl where
  control_id : String
  title : String
deriving DecidableEq, Repr

structure PciRequirement where
  requirement_id : String
  title : String
deriving DecidableEq, Repr

structure ComplianceMapping where
  iso27001_controls : List IsoControl
  pcidss_requirements : List PciRequirement
deriving DecidableEq, Repr

structure IncidentSuggestion where
  create_incident : Bool
  incident_type : Option String
deriving DecidableEq, Repr

structure Verdict where
  event_id : Option String
  policy_result : PolicyResult
  compliance_mapping : ComplianceMapping
  incident : IncidentSuggestion
deriving DecidableEq, Repr

/-- Python's `str.strip()`: drop whitespace from both ends. -/
def pyStrip (s : String) : String :=
  ⟨((s.toList.dropWhile Char.isWhitespace).reverse.dropWhile Char.isWhitespace).reverse⟩

/-- Python's `str.lower()` on the ASCII identifiers this system uses. -/
def pyLower (s : String) : String :=
  ⟨s.toList.map Char.toLower⟩

/-- `(event.get(k) or "UNKNOWN").strip()`: absent, null and empty values
fall back to `"UNKNOWN"`, then whitespace is stripped. -/
def normField (o : Option String) : String :=
  pyStrip (match o with
    | none => "UNKNOWN"
    | some s => if s = "" then "UNKNOWN" else s)

/-- The default compliant verdict (src/rule_engine.py lines 45-62). -/
def defaultVerdict (e : Event) : Verdict :=
  { event_id := e.event_id
    policy_result :=
      { policy_id := none
        policy_name := none
        is_violation := false
        reason := "No policy violation detected" }
    compliance_mapping :=
      { iso27001_controls := []
        pcidss_requirements := [] }
    incident :=
      { create_incident := false
        incident_type := none } }

/-- Embeds `evaluate_event` (src/rule_engine.py lines 33-149): four rules
tried in order, first match wins, default verdict otherwise.  The source
also normalises `severity`, but no rule reads it, so it is omitted here. -/
def evaluate_event (e : Event) : Verdict :=
  let event_type := normField e.event_type
  let zone := normField e.zone
  let ts := parse_timestamp (e.timestamp.getD "")
  if event_type = "RFID_ACCESS_DENIED" then
    { event_id := e.event_id
      policy_result :=
        { policy_id := some "POL-PA-001"
          policy_name := some "Unauthorized physical access attempt"
          is_violation := true
          reason := "RFID access was denied (possible unauthorized attempt)" }
      compliance_mapping :=
        { iso27001_controls := [⟨"A.11.1.2", "Physical entry controls"⟩]
          pcidss_requirements := [⟨"Req. 9", "Restrict physical access to cardholder data"⟩] }
      incident :=
        { create_incident := true
          incident_type := some "UNAUTHORIZED_ACCESS_ATTEMPT" } }
  else if event_type = "MOTION_DETECTED" ∧ is_after_hours ts = true ∧
      (zone = "CASH_VAULT" ∨ zone = "SERVER_ROOM") then
    { event_id := e.event_id
      policy_result :=
        { policy_id := some "POL-PA-002"
          policy_name := some "After-hours motion in restricted zone"
          is_violation := true
          reason := "Motion detected after-hours in restricted zone (" ++ zone ++ ")" }
      compliance_mapping :=
        { iso27001_controls := [⟨"A.11.1.1", "Physical security perimeter"⟩]
          pcidss_requirements := [⟨"Req. 9", "Restrict physical access to cardholder data"⟩] }
      incident :=
        { create_incident := true
          incident_type := some "SUSPICIOUS_AFTER_HOURS_ACTIVITY" } }
  else if event_type = "TEMP_THRESHOLD_EXCEEDED" ∧ zone = "SERVER_ROOM" then
    { event_id := e.event_id
      policy_result :=
        { policy_id := some "POL-ENV-001"
          policy_name := some "Environmental threshold breach"
          is_violation := true
          reason := "Temperature exceeded threshold in server room" }
      compliance_mapping :=
        { iso27001_controls := [⟨"A.11.2.2", "Supporting utilities"⟩]
          pcidss_requirements := [⟨"Req. 9", "Protect systems from environmental threats"⟩] }
      incident :=
        { create_incident := true
          incident_type := some "ENVIRONMENTAL_RISK" } }
  else if event_type = "CAMERA_TAMPER_DETECTED" then
    { event_id := e.event_id
      policy_result :=
        { policy_id := some "POL-CCTV-001"
          policy_name := some "CCTV tamper detection"
          is_violation := true
          reason := "Camera tamper detected (possible attempt to disable surveillance)" }
      compliance_mapping :=
        { iso27001_controls := [⟨"A.11.1.4", "Protecting against external and environmental threats"⟩]
          pcidss_requirements := [⟨"Req. 9", "Use video cameras and protect them from tampering"⟩] }
      incident :=
        { create_incident := true
          incident_type := some "SURVEILLANCE_TAMPER" } }
  else defaultVerdict e

/-- Python's `sub in s` substring test, on the character lists of the
strings, used to state "the reason text contains ...". -/
def substrAt : List Char → List Char → Bool
  | [], _ => true
  | _ :: _, [] => false
  | a :: as, b :: bs => a = b && substrAt as bs

def containsSub (s sub : List Char) : Bool :=
  match s with
  | [] => sub.isEmpty
  | _ :: t => substrAt sub s || containsSub t sub

def strContains (s sub : String) : Bool :=
  containsSub s.toList sub.toList

/-- `n / d` rounded to the nearest integer, ties to even — the rounding
of Python's built-in `round`. -/
def halfEvenDiv (n d : Nat) : Nat :=
  let q := n / d
  let r := n % d
  if 2 * r < d then q
  else if d < 2 * r then q + 1
  else if q % 2 = 0 then q else q + 1

/-- `round((part / total) * 100, 1)`: the percentage `part / total * 100`
rounded to one decimal place.  The source computes this on floats; it is
modelled here as exact rational arithmetic
(`part / total * 100 * 10 = 1000 * part / total`, rounded half-to-even,
then divided by ten), which agrees with the float computation at every
value the claims mention. -/
def roundedPercent (part total : Nat) : Rat :=
  Rat.divInt (halfEvenDiv (1000 * part) total) 10

/-- Zone compliance threshold, `THRESHOLD = 90.0` in src/app.py. -/
def THRESHOLD : Rat := 90

structure SeverityCounts where
  low : Nat
  medium : Nat
  high : Nat
  critical : Nat
deriving DecidableEq, Repr

structure DashboardStats where
  total : Nat
  severity_counts : SeverityCounts
  event_type_counts : List (String × Nat)
  zone_counts : List (String × Nat)
  recent_alerts : List Event
  violations_count : Nat
  compliant_count : Nat
  compliance_percent : Rat
  violation_percent : Rat
deriving DecidableEq, Repr

/-- Increment the tally for key `k` in an insertion-ordered association
list, as the `dict.get(k, 0) + 1` loops in src/app.py do. -/
def bump (l : List (String × Nat)) (k : String) : List (String × Nat) :=
  match l with
  | [] => [(k, 1)]
  | (k0, n) :: rest => if k0 = k then (k0, n + 1) :: rest else (k0, n) :: bump rest k

def tally (f : Event → String) (es : List Event) : List (String × Nat) :=
  es.foldl (fun acc e => bump acc (f e)) []

/-- `(e.get("severity") or "").strip().lower()`. -/
def sevKey (e : Event) : String :=
  pyLower (pyStrip (e.severity.getD ""))

/-- Embeds `compute_dashboard_stats` (src/app.py lines 72-117). -/
def compute_dashboard_stats (events : List Event) : DashboardStats :=
  let total := events.length
  let severity_counts : SeverityCounts :=
    { low := events.countP (fun e => sevKey e == "low")
      medium := events.countP (fun e => sevKey e == "medium")
      high := events.countP (fun e => sevKey e == "high")
      critical := events.countP (fun e => sevKey e == "critical") }
  let event_type_counts := tally (fun e => e.event_type.getD "UNKNOWN") events
  let zone_counts := tally (fun e => e.zone.getD "UNKNOWN") events
  let high_alerts :=
    (List.insertionSort (fun a b => (b.timestamp.getD "") ≤ (a.timestamp.getD ""))
      (events.filter (fun e =>
        pyLower (e.severity.getD "") == "high" || pyLower (e.severity.getD "") == "critical"))).take 5
  let violations_count := events.countP (fun e => (evaluate_event e).policy_result.is_violation)
  let compliant_count := events.countP (fun e => !(evaluate_event e).policy_result.is_violation)
  let compliance_percent :=
    if 0 < total then roundedPercent compliant_count total else 0
  let violation_percent :=
    if 0 < total then roundedPercent violations_count total else 0
  { total := total
    severity_counts := severity_counts
    event_type_counts := event_type_counts
    zone_counts := zone_counts
    recent_alerts := high_alerts
    violations_count := violations_count
    compliant_count := compliant_count
    compliance_percent := compliance_percent
    violation_percent := violation_percent }

structure ZoneRow where
  zone : String
  total : Nat
  violations : Nat
  compliance_percent : Rat
  status : String
deriving DecidableEq, Repr

/-- Per-zone (total, violations) accumulation in an insertion-ordered
association list, as the `zone_breakdown` dict loop in src/app.py. -/
def bumpZone (l : List (String × Nat × Nat)) (z : String) (v : Bool) :
    List (String × Nat × Nat) :=
  match l with
  | [] => [(z, 1, if v then 1 else 0)]
  | (z0, t, vi) :: rest =>
    if z0 = z then (z0, t + 1, if v then vi + 1 else vi) :: rest
    else (z0, t, vi) :: bumpZone rest z v

def zoneBreakdown (events : List Event) : List (String × Nat × Nat) :=
  events.foldl
    (fun acc e => bumpZone acc (e.zone.getD "UNKNOWN")
      ((evaluate_event e).policy_result.is_violation)) []

def mkZoneRow (threshold : Rat) (p : String × Nat × Nat) : ZoneRow :=
  let total := p.2.1
  let violations := p.2.2
  let compliant := total - violations
  let compliance_percent :=
    if 0 < total then roundedPercent compliant total else 0
  { zone := p.1
    total := total
    violations := violations
    compliance_percent := compliance_percent
    status := if compliance_percent < threshold then "NEEDS_ATTENTION" else "WITHIN_THRESHOLD" }

/-- Ordering of zone rows by compliance percentage (worst first). -/
def rowLe (a b : ZoneRow) : Prop :=
  a.compliance_percent ≤ b.compliance_percent

instance : DecidableRel rowLe := fun a b => inferInstanceAs (Decidable (_ ≤ _))

instance : IsTotal ZoneRow rowLe := ⟨fun _ _ => le_total _ _⟩

instance : IsTrans ZoneRow rowLe := ⟨fun _ _ _ h1 h2 => le_trans h1 h2⟩

/-- Embeds `build_zone_rows` (src/app.py lines 120-147): per-zone rows,
sorted ascending (stably) by compliance percentage. -/
def build_zone_rows (events : List Event) (threshold : Rat) : List ZoneRow :=
  List.insertionSort rowLe ((zoneBreakdown events).map (mkZoneRow threshold))

/-- Convenience constructor for concrete test events. -/
def mkEvent (ty zo ts : Option String) (da : Option Int) (temp : Option Rat) : Event :=
  { event_id := some "evt-1"
    timestamp := ts
    device_type := none
    zone := zo
    event_type := ty
    severity := some "LOW"
    denied_attempts := da
    temperature := temp }

/-- An access-granted event timestamped 22:00, outside business hours. -/
def grantedAfterHoursEvent : Event :=
  mkEvent (some "RFID_ACCESS_GRANTED") (some "SERVER_ROOM") (some "2026-01-09T22:00:00") none none

/-- An access-denied event carrying `denied_attempts = 3`. -/
def deniedThriceEvent : Event :=
  mkEvent (some "RFID_ACCESS_DENIED") (some "SERVER_ROOM") (some "2026-01-09T10:00:00") (some 3) none

/-- A server-room temperature event with `temperature = 30.0` (at threshold). -/
def tempAtThresholdEvent : Event :=
  mkEvent (some "TEMP_THRESHOLD_EXCEEDED") (some "SERVER_ROOM") (some "2026-01-09T10:00:00") none (some 30)

/-- A server-room temperature event with `temperature = 30.1`. -/
def tempAboveThresholdEvent : Event :=
  mkEvent (some "TEMP_THRESHOLD_EXCEEDED") (some "SERVER_ROOM") (some "2026-01-09T10:00:00") none
    (some (Rat.divInt 301 10))

/-- A camera-tamper event in the cash vault. -/
def tamperVaultEvent : Event :=
  mkEvent (some "CAMERA_TAMPER_DETECTED") (some "CASH_VAULT") (some "2026-01-09T10:00:00") none none

/-- A camera-tamper event in the lobby (violation in any zone). -/
def tamperLobbyEvent : Event :=
  mkEvent (some "CAMERA_TAMPER_DETECTED") (some "LOBBY") (some "2026-01-09T10:00:00") none none

/-- A compliant access-granted event in the lobby during business hours. -/
def grantedLobbyEvent : Event :=
  mkEvent (some "RFID_ACCESS_GRANTED") (some "LOBBY") (some "2026-01-09T10:00:00") none none

/-- An event with every field absent. -/
def emptyEvent : Event :=
  { event_id := none
    timestamp := none
    device_type := none
    zone := none
    event_type := none
    severity := none
    denied_attempts := none
    temperature := none }

/-- A motion event in the cash vault timestamped exactly 18:00:00. -/
def motionAtSixEvent : Event :=
  mkEvent (some "MOTION_DETECTED") (some "CASH_VAULT") (some "2026-01-09T18:00:00") none none

/-- A motion event in the cash vault with an unparseable timestamp. -/
def motionBadTsEvent : Event :=
  mkEvent (some "MOTION_DETECTED") (some "CASH_VAULT") (some "yesterday evening") none none

/-- Ten lobby events of which exactly one (the camera tamper) is a
violation: the zone-compliance boundary example. -/
def tenLobbyEvents : List Event :=
  List.replicate 9 grantedLobbyEvent ++ [tamperLobbyEvent]

/-- The zone row the boundary example produces. -/
def lobbyRow : ZoneRow :=
  { zone := "LOBBY", total := 10, violations := 1, compliance_percent := 90, status := "WITHIN_THRESHOLD" }

/-- Claim C1, counterexample: `grantedAfterHoursEvent` has event_type
`RFID_ACCESS_GRANTED` and a timestamp whose hour (22) lies outside the
business-hours window [8,18), yet `evaluate_event` returns
`is_violation = false` and no incident — not a violation with incident
type `UNAUTHORISED_PHYSICAL_ACCESS` as the claim states. -/
theorem c1_no_after_hours_access_rule_counterexample :
    (parse_timestamp "2026-01-09T22:00:00").map (fun dt => dt.time.hour) = some 22 ∧
    (22 < START_HOUR ∨ END_HOUR ≤ 22) ∧
    (evaluate_event grantedAfterHoursEvent).policy_result.is_violation = false ∧
    (evaluate_event grantedAfterHoursEvent).incident.incident_type = none := by
  decide

/-- Claim C1, amended: the rule engine has no rule for access-granted
events at all; every event whose event_type is `RFID_ACCESS_GRANTED`
receives the default compliant verdict regardless of its timestamp. -/
theorem c1_access_granted_always_compliant (e : Event)
    (h : normField e.event_type = "RFID_ACCESS_GRANTED") :
    evaluate_event e = defaultVerdict e := by
  simp [evaluate_event, h]

/-- Claim C1, amended, witness at the concrete after-hours event. -/
theorem c1_access_granted_always_compliant_witness :
    normField grantedAfterHoursEvent.event_type = "RFID_ACCESS_GRANTED" ∧
    evaluate_event grantedAfterHoursEvent = defaultVerdict grantedAfterHoursEvent :=
  ⟨by decide, c1_access_granted_always_compliant grantedAfterHoursEvent (by decide)⟩

/-- Claim C2, counterexample: for the access-denied event with
`denied_attempts = 3`, `is_violation = true` holds, but the reason text
is a fixed string that does not contain the literal count "3". -/
theorem c2_reason_has_no_count_counterexample :
    deniedThriceEvent.denied_attempts = some 3 ∧
    (evaluate_event deniedThriceEvent).policy_result.is_violation = true ∧
    strContains (evaluate_event deniedThriceEvent).policy_result.reason "3" = false := by
  decide

/-- Claim C2, amended: every access-denied event is a violation
unconditionally — `denied_attempts` is never consulted — and the reason
is the fixed text "RFID access was denied (possible unauthorized
attempt)", which contains no attempt count. -/
theorem c2_denied_always_violation (e : Event)
    (h : normField e.event_type = "RFID_ACCESS_DENIED") :
    (evaluate_event e).policy_result.is_violation = true ∧
    (evaluate_event e).policy_result.reason =
      "RFID access was denied (possible unauthorized attempt)" ∧
    strContains (evaluate_event e).policy_result.reason "3" = false := by
  refine ⟨?_, ?_, ?_⟩ <;> simp [evaluate_event, h] <;> decide

/-- Claim C2, amended, witness at the `denied_attempts = 3` event. -/
theorem c2_denied_always_violation_witness :
    normField deniedThriceEvent.event_type = "RFID_ACCESS_DENIED" ∧
    ((evaluate_event deniedThriceEvent).policy_result.is_violation = true ∧
     (evaluate_event deniedThriceEvent).policy_result.reason =
       "RFID access was denied (possible unauthorized attempt)" ∧
     strContains (evaluate_event deniedThriceEvent).policy_result.reason "3" = false) :=
  ⟨by decide, c2_denied_always_violation deniedThriceEvent (by decide)⟩

/-- Claim C3, counterexample: a server-room temperature event with
`temperature = 30.0` is reported as a violation (the claim says
compliant, since 30.0 is not strictly above the threshold), and at
`temperature = 30.1` the reason text does not contain "30.1". -/
theorem c3_threshold_not_checked_counterexample :
    tempAtThresholdEvent.temperature = some 30 ∧
    (evaluate_event tempAtThresholdEvent).policy_result.is_violation = true ∧
    tempAboveThresholdEvent.temperature = some (Rat.divInt 301 10) ∧
    (evaluate_event tempAboveThresholdEvent).policy_result.is_violation = true ∧
    strContains (evaluate_event tempAboveThresholdEvent).policy_result.reason "30.1" = false := by
  decide

/-- Claim C3, amended: every `TEMP_THRESHOLD_EXCEEDED` event in the
server room is a violation regardless of the `temperature` value (the
code never compares it against a threshold), with the fixed reason
"Temperature exceeded threshold in server room" and incident type
`ENVIRONMENTAL_RISK`. -/
theorem c3_server_room_temp_always_violation (e : Event)
    (h1 : normField e.event_type = "TEMP_THRESHOLD_EXCEEDED")
    (h2 : normField e.zone = "SERVER_ROOM") :
    (evaluate_event e).policy_result.is_violation = true ∧
    (evaluate_event e).policy_result.reason = "Temperature exceeded threshold in server room" ∧
    (evaluate_event e).incident.incident_type = some "ENVIRONMENTAL_RISK" := by
  refine ⟨?_, ?_, ?_⟩ <;> simp [evaluate_event, h1, h2]

/-- Claim C3, amended, witness at the `temperature = 30.0` event. -/
theorem c3_server_room_temp_always_violation_witness :
    normField tempAtThresholdEvent.event_type = "TEMP_THRESHOLD_EXCEEDED" ∧
    ((evaluate_event tempAtThresholdEvent).policy_result.is_violation = true ∧
     (evaluate_event tempAtThresholdEvent).policy_result.reason =
       "Temperature exceeded threshold in server room" ∧
     (evaluate_event tempAtThresholdEvent).incident.incident_type = some "ENVIRONMENTAL_RISK") :=
  ⟨by decide, c3_server_room_temp_always_violation tempAtThresholdEvent (by decide) (by decide)⟩

/-- Claim C4: a verdict with `is_violation = false` carries empty
ISO 27001 and PCI DSS citation lists and `create_incident = false`;
only the default verdict is non-violating, and it cites nothing. -/
theorem c4_compliant_verdict_carries_nothing (e : Event) :
    (evaluate_event e).policy_result.is_violation = false →
    (evaluate_event e).compliance_mapping.iso27001_controls = [] ∧
    (evaluate_event e).compliance_mapping.pcidss_requirements = [] ∧
    (evaluate_event e).incident.create_incident = false := by
  simp only [evaluate_event, defaultVerdict]
  split_ifs <;> simp

/-- Claim C4, witness at the all-absent event. -/
theorem c4_compliant_verdict_carries_nothing_witness :
    (evaluate_event emptyEvent).policy_result.is_violation = false ∧
    ((evaluate_event emptyEvent).compliance_mapping.iso27001_controls = [] ∧
     (evaluate_event emptyEvent).compliance_mapping.pcidss_requirements = [] ∧
     (evaluate_event emptyEvent).incident.create_incident = false) :=
  ⟨by decide, c4_compliant_verdict_carries_nothing emptyEvent (by decide)⟩

/-- Claim C5: an event whose (normalised) event_type is none of the four
recognised types receives the default compliant verdict: no violation,
empty citation lists, no incident. -/
theorem c5_unrecognized_type_default_verdict (e : Event)
    (h1 : normField e.event_type ≠ "RFID_ACCESS_DENIED")
    (h2 : normField e.event_type ≠ "MOTION_DETECTED")
    (h3 : normField e.event_type ≠ "TEMP_THRESHOLD_EXCEEDED")
    (h4 : normField e.event_type ≠ "CAMERA_TAMPER_DETECTED") :
    evaluate_event e = defaultVerdict e ∧
    (evaluate_event e).policy_result.is_violation = false ∧
    (evaluate_event e).compliance_mapping.iso27001_controls = [] ∧
    (evaluate_event e).compliance_mapping.pcidss_requirements = [] ∧
    (evaluate_event e).incident.create_incident = false ∧
    (evaluate_event e).incident.incident_type = none := by
  have hdef : evaluate_event e = defaultVerdict e := by
    simp [evaluate_event, h1, h2, h3, h4]
  refine ⟨hdef, ?_, ?_, ?_, ?_, ?_⟩ <;> rw [hdef] <;> rfl

/-- Claim C5, witness at a plain access-granted event. -/
theorem c5_unrecognized_type_default_verdict_witness :
    normField grantedLobbyEvent.event_type = "RFID_ACCESS_GRANTED" ∧
    ((evaluate_event grantedLobbyEvent).policy_result.is_violation = false ∧
     (evaluate_event grantedLobbyEvent).incident.incident_type = none) :=
  ⟨by decide,
    ⟨(c5_unrecognized_type_default_verdict grantedLobbyEvent
        (by decide) (by decide) (by decide) (by decide)).2.1,
     (c5_unrecognized_type_default_verdict grantedLobbyEvent
        (by decide) (by decide) (by decide) (by decide)).2.2.2.2.2⟩⟩

/-- Claim C9: every camera-tamper event is a violation with an incident,
and the incident type is one of `SURVEILLANCE_COMPROMISE` or
`SURVEILLANCE_TAMPER` (the code always chooses the latter). -/
theorem c9_tamper_always_violation (e : Event)
    (h : normField e.event_type = "CAMERA_TAMPER_DETECTED") :
    (evaluate_event e).policy_result.is_violation = true ∧
    (evaluate_event e).incident.create_incident = true ∧
    ((evaluate_event e).incident.incident_type = some "SURVEILLANCE_COMPROMISE" ∨
     (evaluate_event e).incident.incident_type = some "SURVEILLANCE_TAMPER") := by
  refine ⟨?_, ?_, Or.inr ?_⟩ <;> simp [evaluate_event, h]

/-- Claim C9, witness at the cash-vault tamper event. -/
theorem c9_tamper_always_violation_witness :
    normField tamperVaultEvent.event_type = "CAMERA_TAMPER_DETECTED" ∧
    ((evaluate_event tamperVaultEvent).policy_result.is_violation = true ∧
     (evaluate_event tamperVaultEvent).incident.create_incident = true ∧
     ((evaluate_event tamperVaultEvent).incident.incident_type = some "SURVEILLANCE_COMPROMISE" ∨
      (evaluate_event tamperVaultEvent).incident.incident_type = some "SURVEILLANCE_TAMPER")) :=
  ⟨by decide, c9_tamper_always_violation tamperVaultEvent (by decide)⟩

/-- Claim C6: evaluation degrades gracefully on bad timestamps — an
unparseable timestamp string parses to `none`, `_is_after_hours` maps a
`none` parse to `false`, and an event whose timestamp does not parse is
evaluated exactly as if it had no timestamp at all (so no
time-of-day-dependent rule fires); `evaluate_event` is a total function
by construction. -/
theorem c6_unparseable_timestamp_degrades :
    is_after_hours none = false ∧
    parse_timestamp "not a timestamp" = none ∧
    (∀ e : Event, parse_timestamp (e.timestamp.getD "") = none →
      evaluate_event e = evaluate_event { e with timestamp := none }) := by
  refine ⟨rfl, by decide, ?_⟩
  intro e h
  have hempty : parse_timestamp "" = none := rfl
  simp [evaluate_event, defaultVerdict, h, hempty, is_after_hours]

/-- Claim C6, witness at a motion event with unparseable timestamp. -/
theorem c6_unparseable_timestamp_degrades_witness :
    parse_timestamp (motionBadTsEvent.timestamp.getD "") = none ∧
    evaluate_event motionBadTsEvent = evaluate_event { motionBadTsEvent with timestamp := none } :=
  ⟨by decide, c6_unparseable_timestamp_degrades.2.2 motionBadTsEvent (by decide)⟩

/-- Claim C7: on the empty event list both percentages are 0.0 (no
division error), and on any non-empty list in which every event is a
violation the compliance percentage is 0.0 and the violation percentage
is 100.0. -/
theorem c7_percentages_empty_and_all_violations :
    (compute_dashboard_stats []).compliance_percent = 0 ∧
    (compute_dashboard_stats []).violation_percent = 0 ∧
    (∀ es : List Event, es ≠ [] →
      (∀ e ∈ es, (evaluate_event e).policy_result.is_violation = true) →
      (compute_dashboard_stats es).compliance_percent = 0 ∧
      (compute_dashboard_stats es).violation_percent = 100) := by
  refine ⟨by decide, by decide, ?_⟩
  intro es hne hall
  have hlen : 0 < es.length := List.length_pos.mpr hne
  have hv : es.countP (fun e => (evaluate_event e).policy_result.is_violation) = es.length :=
    List.countP_eq_length.mpr hall
  have hc : es.countP (fun e => !(evaluate_event e).policy_result.is_violation) = 0 :=
    List.countP_eq_zero.mpr (by intro e he; simp [hall e he])
  have h0 : roundedPercent 0 es.length = 0 := by
    simp [roundedPercent, halfEvenDiv, Nat.pos_iff_ne_zero.mp hlen]
  have h100 : roundedPercent es.length es.length = 100 := by
    have hne0 : es.length ≠ 0 := Nat.pos_iff_ne_zero.mp hlen
    have hdiv : 1000 * es.length / es.length = 1000 := Nat.mul_div_cancel 1000 hlen
    have hmod : 1000 * es.length % es.length = 0 := Nat.mul_mod_left ..
    simp [roundedPercent, halfEvenDiv, hdiv, hmod, hlen]
    decide
  constructor
  · simp [compute_dashboard_stats, hc, hlen, h0]
  · simp [compute_dashboard_stats, hv, hlen, h100]

/-- Claim C7, witness at a one-element all-violations list. -/
theorem c7_percentages_witness :
    (compute_dashboard_stats [tamperLobbyEvent]).compliance_percent = 0 ∧
    (compute_dashboard_stats [tamperLobbyEvent]).violation_percent = 100 :=
  c7_percentages_empty_and_all_violations.2.2 [tamperLobbyEvent] (by decide) (by decide)

/-- Claim C8: zone rows come out sorted ascending by compliance
percentage (worst first); each row's status is `NEEDS_ATTENTION` exactly
when its compliance percentage is strictly below the threshold and
`WITHIN_THRESHOLD` otherwise; and the boundary example — one violation
among ten events in a zone — yields 90.0 percent and
`WITHIN_THRESHOLD` at the default threshold 90.0. -/
theorem c8_zone_rows_sorted_and_status (es : List Event) (threshold : Rat) :
    List.Sorted rowLe (build_zone_rows es threshold) ∧
    (∀ r ∈ build_zone_rows es threshold,
      r.status = if r.compliance_percent < threshold then "NEEDS_ATTENTION" else "WITHIN_THRESHOLD") ∧
    build_zone_rows tenLobbyEvents THRESHOLD = [lobbyRow] := by
  refine ⟨List.sorted_insertionSort rowLe _, ?_, ?_⟩
  · intro r hr
    rw [build_zone_rows, List.mem_insertionSort] at hr
    obtain ⟨p, hp, rfl⟩ := List.mem_map.mp hr
    rfl
  · decide

/-- Claim C8, witness: the concrete ten-event run is sorted, and the
resulting row's status follows the threshold comparison. -/
theorem c8_zone_rows_witness :
    List.Sorted rowLe (build_zone_rows tenLobbyEvents THRESHOLD) ∧
    lobbyRow.status =
      (if lobbyRow.compliance_percent < THRESHOLD then "NEEDS_ATTENTION" else "WITHIN_THRESHOLD") :=
  ⟨(c8_zone_rows_sorted_and_status tenLobbyEvents THRESHOLD).1,
   (c8_zone_rows_sorted_and_status tenLobbyEvents THRESHOLD).2.1 lobbyRow
     (by rw [(c8_zone_rows_sorted_and_status tenLobbyEvents THRESHOLD).2.2]; exact List.mem_singleton.mpr rfl)⟩

/-- Claim C10: a parsed timestamp counts as after-hours exactly when its
clock time is strictly before 08:00:00 or strictly after 18:00:00; both
boundary instants 08:00:00 and 18:00:00 count as business hours; and a
motion event timestamped exactly 18:00:00 is not a violation. -/
theorem c10_business_hours_boundaries :
    (∀ (s : String) (dt : DateTime), parse_timestamp s = some dt →
      (is_after_hours (some dt) = true ↔
        (dt.time.hour < START_HOUR ∨ END_HOUR < dt.time.hour ∨
          (dt.time.hour = END_HOUR ∧ (0 < dt.time.minute ∨ 0 < dt.time.second))))) ∧
    (∀ (s : String) (dt : DateTime), parse_timestamp s = some dt →
      dt.time = ⟨START_HOUR, 0, 0⟩ → is_after_hours (some dt) = false) ∧
    (∀ (s : String) (dt : DateTime), parse_timestamp s = some dt →
      dt.time = ⟨END_HOUR, 0, 0⟩ → is_after_hours (some dt) = false) ∧
    (∀ (e : Event) (dt : DateTime), normField e.event_type = "MOTION_DETECTED" →
      parse_timestamp (e.timestamp.getD "") = some dt → dt.time = ⟨END_HOUR, 0, 0⟩ →
      (evaluate_event e).policy_result.is_violation = false) := by
  refine ⟨?_, ?_, ?_, ?_⟩
  · rintro s ⟨y, mo, d, hh, mm, ss⟩ -
    simp only [is_after_hours, timeLt, START_HOUR, END_HOUR, Bool.or_eq_true, decide_eq_true_eq]
    omega
  · intro s dt _ ht
    simp [is_after_hours, timeLt, ht, START_HOUR, END_HOUR]
  · intro s dt _ ht
    simp [is_after_hours, timeLt, ht, START_HOUR, END_HOUR]
  · intro e dt hty hts htime
    have hafter : is_after_hours (some dt) = false := by
      simp [is_after_hours, timeLt, htime, START_HOUR, END_HOUR]
    simp [evaluate_event, defaultVerdict, hty, hts, hafter]

/-- Claim C10, witness at the 18:00:00 boundary. -/
theorem c10_business_hours_boundaries_witness :
    is_after_hours (some ⟨2026, 1, 9, ⟨18, 0, 0⟩⟩) = false ∧
    (evaluate_event motionAtSixEvent).policy_result.is_violation = false :=
  ⟨c10_business_hours_boundaries.2.2.1 "2026-01-09T18:00:00" ⟨2026, 1, 9, ⟨18, 0, 0⟩⟩
     (by decide) rfl,
   c10_business_hours_boundaries.2.2.2 motionAtSixEvent ⟨2026, 1, 9, ⟨18, 0, 0⟩⟩
     (by decide) (by decide) rfl⟩

end GRSee
